import Mathlib

/-!
Verification development for the browser-side upload / detection UI.

The repository contains three scripts:
* `src/unnamed/part_001` — the backend-integrated controller (fetch calls,
  language map, translation tables, `displayResults`).  It is modelled below
  as a step function `step` over an explicit state record `St`.
* `src/Main.js` — a simulated legacy variant (no network); modelled as
  `mainCheckClick` etc. over `MainSt`.
* `src/unnamed/part_000` — a second simulated variant (not needed by any
  claim beyond what `Main.js` already exhibits).

Machine numbers: JS numbers carrying confidence scores are modelled as `ℚ`;
`Math.round` is `jsRound q = ⌊q + 1/2⌋` (JS rounds half toward +∞).
The DOM is modelled by the text/flag fields the scripts read and write.
-/

namespace GirlcodeUI

/-- JS `Math.round`: round half toward positive infinity. -/
def jsRound (q : ℚ) : ℤ := ⌊q + 1/2⌋

/-- Character-list prefix test (structural, kernel-reducible). -/
def hasPrefixL : List Char → List Char → Bool
  | [], _ => true
  | _ :: _, [] => false
  | a :: as, b :: bs => a == b && hasPrefixL as bs

/-- Character-list substring test (structural, kernel-reducible). -/
def hasSubstrL (sub : List Char) : List Char → Bool
  | [] => hasPrefixL sub []
  | c :: t => hasPrefixL sub (c :: t) || hasSubstrL sub t

/-- JS `hay.includes(needle)`. -/
def jsIncludes (hay needle : String) : Bool := hasSubstrL needle.data hay.data

/-- JS `s.startsWith(p)`. -/
def jsStartsWith (s p : String) : Bool := hasPrefixL p.data s.data

/-- JS `s || d` on strings: the empty string is falsy. -/
def jsOrS (s d : String) : String := if s = "" then d else s

/-- JS `x || d` where `x` is an optional string field of a parsed JSON
object: both `undefined` and `""` fall through to the default. -/
def jsOrOpt (o : Option String) (d : String) : String :=
  match o with
  | none => d
  | some s => if s = "" then d else s

/-- The closed set of language codes (`LANGUAGE_MAP` values). -/
inductive Lang
  | en | zu | xh | st | af
deriving DecidableEq

/-- The query-parameter form of a language code. -/
def langCode : Lang → String
  | .en => "en"
  | .zu => "zu"
  | .xh => "xh"
  | .st => "st"
  | .af => "af"

/-- `LANGUAGE_MAP[selectedLang] || 'en'`: dropdown item text to code. -/
def languageMap (name : String) : Lang :=
  if name = "English" then .en
  else if name = "isiZulu" then .zu
  else if name = "isiXhosa" then .xh
  else if name = "Sesotho" then .st
  else if name = "Afrikaans" then .af
  else .en

/-- The three input-mode tabs (`data-tab` values). -/
inductive Tab
  | text | image | video
deriving DecidableEq

/-- The `type` field of normalized analysis results
(`'video' | 'image' | 'document'`). -/
inductive RType
  | video | image | document
deriving DecidableEq

/-- An opaque staged file handle: name, byte size, declared MIME type. -/
structure FileRec where
  name : String
  size : Nat
  mime : String
deriving DecidableEq

/-- One outgoing HTTP POST: full URL (endpoint plus `language` query
parameter) and the multipart file body. -/
structure Request where
  url : String
  body : FileRec
deriving DecidableEq

/-- `API_BASE_URL` from `part_001`. -/
def API_BASE_URL : String := "http://127.0.0.1:8000"

/-- Endpoint path chosen by the active tab, as routed by the
`checkBtn` handler (`analyzeVideo` / `analyzeImage` / `analyzeDocument`). -/
def endpointPath : Tab → String
  | .video => "/api/detect-with-audio"
  | .image => "/api/detect-image"
  | .text => "/api/detect-document"

/-- The single request issued by the analyze functions:
`fetch(API_BASE_URL + path + condition, { method: POST, body: formData })`. -/
def requestFor (t : Tab) (l : Lang) (f : FileRec) : Request :=
  { url := API_BASE_URL ++ endpointPath t ++ "?language=" ++ langCode l
    body := f }

/-- The `detection_result` object of a backend response. -/
structure DetectionFields where
  is_ai_generated : Bool
  confidence_score : ℚ
  message : Option String
  warning : Option String
  confidence_label : Option String
deriving DecidableEq

/-- A parsed successful response body: `detection_result` plus the
mode-specific metadata object and `audio_info?.has_audio`. -/
structure ResponseData where
  detection_result : DetectionFields
  modeInfo : String
  hasAudioInfo : Option Bool
deriving DecidableEq

/-- How one dispatched request settles: parsed JSON on an OK status, a
non-success HTTP status, or a transport-level failure. -/
inductive Outcome
  | ok (data : ResponseData)
  | httpError (status : Nat)
  | networkFailure (reason : String)
deriving DecidableEq

/-- `true` exactly on `Outcome.ok`. -/
def Outcome.isOk : Outcome → Bool
  | .ok _ => true
  | _ => false

/-- Alert text produced by the catch block: "Error: " followed by the
error message, where a non-OK status threw an error whose message is
"HTTP error! status: " followed by the status code, and a transport-level
failure carries its own reason. -/
def errText : Outcome → String
  | .ok _ => ""
  | .httpError status => "Error: HTTP error! status: " ++ toString status
  | .networkFailure reason => "Error: " ++ reason

/-- The normalized record returned by the analyze functions. -/
structure AnalysisResult where
  type : RType
  isAI : Bool
  confidence : ℚ
  message : String
  warning : String
  confidenceLabel : String
  details : String
  hasAudio : Bool
deriving DecidableEq

/-- Normalization done in `analyzeVideo` / `analyzeImage` /
`analyzeDocument` after `response.json()`. -/
def normalizeResponse (t : Tab) (d : ResponseData) : AnalysisResult :=
  { type := match t with
      | .video => .video
      | .image => .image
      | .text => .document
    isAI := d.detection_result.is_ai_generated
    confidence := d.detection_result.confidence_score
    message := jsOrOpt d.detection_result.message ""
    warning := jsOrOpt d.detection_result.warning ""
    confidenceLabel := jsOrOpt d.detection_result.confidence_label "Confidence"
    details := d.modeInfo
    hasAudio := match t with
      | .video => d.hasAudioInfo.getD false
      | _ => false }

/-- Default descriptions in `displayResults` for the AI-generated branch. -/
def defaultAIDesc : RType → String
  | .video => "This video shows patterns consistent with AI generation. Look for unnatural movements, inconsistent lighting, or irregular facial features."
  | .image => "This image appears to be AI-generated. Check for distorted hands, unusual textures, or impossible reflections."
  | .document => "This text shows characteristics typical of AI writing. Notice the formal tone and lack of personal anecdotes."

/-- Default descriptions in `displayResults` for the human-created branch. -/
def defaultHumanDesc : RType → String
  | .video => "The video displays natural motion, consistent lighting across frames, and authentic audio synchronization."
  | .image => "This image shows characteristics of authentic photography with natural lighting and proper perspective."
  | .document => "This text demonstrates natural human writing patterns with varied sentence structure and personal voice."

/-- What `displayResults` writes into the results panel.  The heading
innerHTML is kept structured: heading text, badge label, and the rounded
badge percentage. -/
structure Render where
  statusIconHTML : String
  statusBg : String
  statusColor : String
  cardClass : String
  headingText : String
  badgeLabel : String
  badgePercent : ℤ
  resultDesc : String
  progressTarget : ℤ
deriving DecidableEq

/-- `displayResults` from `part_001`. -/
def displayResults (r : AnalysisResult) : Render :=
  let confidence := jsRound r.confidence
  let confidenceLabel := jsOrS r.confidenceLabel "Confidence"
  if r.isAI then
    { statusIconHTML := "<span class=\"icon\">⚠️</span>"
      statusBg := "#FFE8E8"
      statusColor := "#D32F2F"
      cardClass := "ai-result"
      headingText := jsOrS r.message "Likely AI-Generated"
      badgeLabel := confidenceLabel
      badgePercent := confidence
      resultDesc := if r.warning = "" then defaultAIDesc r.type else r.warning
      progressTarget := confidence }
  else
    { statusIconHTML := "<span class=\"icon\">✓</span>"
      statusBg := "#E6F7E6"
      statusColor := "#74D480"
      cardClass := "human-result"
      headingText := jsOrS r.message "Likely Human-Created"
      badgeLabel := confidenceLabel
      badgePercent := confidence
      resultDesc := if r.warning = "" then defaultHumanDesc r.type else r.warning
      progressTarget := confidence }

/-- One language's row of `allTranslations` in `translateUIElements`. -/
structure TransStrings where
  heroTitle : String
  heroDesc : String
  tabText : String
  tabImage : String
  tabVideo : String
  checkBtn : String
  resultsTitle : String
  whatYouCanDo : String
  howToSpot : String
  footerText : String
  fileSelected : String
  noFileSelected : String
deriving DecidableEq

/-- The static translation table of `translateUIElements`. -/
def allTranslations : Lang → TransStrings
  | .en =>
    { heroTitle := "Protect yourself from AI-generated content"
      heroDesc := "Analyze text, images, and videos to detect AI-generated content. Get education and insights to protect yourself from misinformation and scams."
      tabText := "Text"
      tabImage := "Image"
      tabVideo := "Video"
      checkBtn := "Check Content"
      resultsTitle := "Detection Results"
      whatYouCanDo := "What You Can Do"
      howToSpot := "How to Spot AI Content"
      footerText := "Protecting South African communities from digital deception"
      fileSelected := "File selected"
      noFileSelected := "No file selected" }
  | .zu =>
    { heroTitle := "Zivikele kokuqukethwe okudalwe yi-AI"
      heroDesc := "Hlaziya umbhalo, izithombe, namavidiyo ukuthola okuqukethwe okudalwe yi-AI. Thola imfundo nolwazi lokuzivikela ekwaziseni okungalungile nasemakhameni."
      tabText := "Umbhalo"
      tabImage := "Isithombe"
      tabVideo := "Ividiyo"
      checkBtn := "Hlola Okuqukethwe"
      resultsTitle := "Imiphumela Yokuhlola"
      whatYouCanDo := "Ongakwenza"
      howToSpot := "Indlela Yokubona Okuqukethwe Kwe-AI"
      footerText := "Sivikela imiphakathi yaseNingizimu Afrika ekukhohliseni kwedijithali"
      fileSelected := "Ifayela likhethiwe"
      noFileSelected := "Alikho ifayela elikhethiwe" }
  | .xh =>
    { heroTitle := "Zikhusele kumxholo oveliswe yi-AI"
      heroDesc := "Hlalutya umbhalo, imifanekiso, neevidiyo ukufumanisa umxholo oveliswe yi-AI. Fumana imfundo nolwazi lokuzikhusela kulwazi olungalunganga nakubuqhophololo."
      tabText := "Umbhalo"
      tabImage := "Umfanekiso"
      tabVideo := "Ividiyo"
      checkBtn := "Hlola Umxholo"
      resultsTitle := "Iziphumo Zokuhlola"
      whatYouCanDo := "Into Onokuyenza"
      howToSpot := "Indlela Yokubona Umxholo We-AI"
      footerText := "Sikhusela uluntu lwaseMzantsi Afrika ekukhohliseni kwedijithali"
      fileSelected := "Ifayile ikhethiwe"
      noFileSelected := "Akukho fayile ekhethiweyo" }
  | .st =>
    { heroTitle := "Itshireletse ho diteng tse hlahisitsweng ke AI"
      heroDesc := "Manollo mongolo, ditshwantsho, le divideo ho fumana diteng tse hlahisitsweng ke AI. Fumana thuto le tsebo ya ho itshireletsa ho tshediso e fosahetseng le dikgoka."
      tabText := "Mongolo"
      tabImage := "Setshwantsho"
      tabVideo := "Video"
      checkBtn := "Hlahloba Diteng"
      resultsTitle := "Diphetho tsa Tlhahlobo"
      whatYouCanDo := "Seo o ka se etsang"
      howToSpot := "Mokhoa wa ho Bona Diteng tsa AI"
      footerText := "Ho sireletsa sechaba sa Afrika Borwa ho tsietso ya dijithale"
      fileSelected := "Faele e khethilwe"
      noFileSelected := "Ha ho faele e khethilweng" }
  | .af =>
    { heroTitle := "Beskerm jouself teen KI-gegenereerde inhoud"
      heroDesc := "Ontleed teks, beelde en video\x27s om KI-gegenereerde inhoud op te spoor. Kry opvoeding en insigte om jouself teen wanligting en boelstreke te beskerm."
      tabText := "Teks"
      tabImage := "Beeld"
      tabVideo := "Video"
      checkBtn := "Kontroleer Inhoud"
      resultsTitle := "Opsporingsresultate"
      whatYouCanDo := "Wat Jy Kan Doen"
      howToSpot := "Hoe om KI-inhoud te Herken"
      footerText := "Beskerm Suid-Afrikaanse gemeenskappe teen digitale misleiding"
      fileSelected := "Lêer gekies"
      noFileSelected := "Geen lêer gekies nie" }

/-- File-type filter written to the hidden file input by `initTabs`. -/
def acceptFor : Tab → String
  | .text => ".txt,.pdf,.docx,.doc"
  | .image => ".jpg,.jpeg,.png,.webp,.bmp"
  | .video => ".mp4,.mov,.avi,.mkv,.webm"

/-- Icon chosen by the file-input change handler from the declared
MIME type. -/
def fileIconFor (f : FileRec) : String :=
  if jsStartsWith f.mime "video/" then "📹"
  else if jsStartsWith f.mime "image/" then "🖼️"
  else "📄"

/-- The in-flight submission: tab captured by the handler closure and the
request already sent. -/
structure Pending where
  tab : Tab
  request : Request
deriving DecidableEq

/-- State of the backend-integrated controller (`part_001`): the three
globals (`currentLanguage`, `currentFile`, `currentTab`), the panel and
submit-control flags, and the DOM text slots the script writes. -/
structure St where
  currentLanguage : Lang
  currentFile : Option FileRec
  currentTab : Tab
  uploaderActive : Bool
  resultsActive : Bool
  checkBtnDisabled : Bool
  checkBtnLabel : String
  fileNameText : String
  fileIconText : String
  fileSubText : String
  fileAccept : String
  heroTitle : String
  heroDesc : String
  tabTextLabel : String
  tabImageLabel : String
  tabVideoLabel : String
  resultsTitle : String
  acc1Header : String
  acc2Header : String
  footerText : String
  pending : Option Pending
  render : Option Render
deriving DecidableEq

/-- Result of one event-handler run: the new state, the HTTP requests it
issued, and the `alert` messages it surfaced. -/
structure Out where
  state : St
  requests : List Request
  alerts : List String
deriving DecidableEq

/-- Events the `part_001` handlers react to.  `settle` is the resolution
of the awaited fetch (`Outcome.ok` runs the rest of the try block, the
others run the catch block; both run the finally block). -/
inductive Event
  | fileChange (file : Option FileRec)
  | dropFile (f : FileRec)
  | tabClick (t : Tab)
  | clearClick
  | submitClick
  | settle (o : Outcome)
  | langItemClick (name : String)
deriving DecidableEq

/-- The file-input `change` handler: only acts when a file is present. -/
def fileChangeStep (s : St) (file : Option FileRec) : Out :=
  match file with
  | none => ⟨s, [], []⟩
  | some f =>
    ⟨{ s with currentFile := some f
              fileNameText := f.name
              fileIconText := fileIconFor f }, [], []⟩

/-- `translateUIElements` (called with the new `currentLanguage` from the
language-item click handler). -/
def translateStep (s : St) (l : Lang) : St :=
  let t := allTranslations l
  { s with currentLanguage := l
           heroTitle := t.heroTitle
           heroDesc := t.heroDesc
           tabTextLabel := t.tabText
           tabImageLabel := t.tabImage
           tabVideoLabel := t.tabVideo
           checkBtnLabel := if s.checkBtnDisabled then s.checkBtnLabel else t.checkBtn
           resultsTitle := t.resultsTitle
           acc1Header := t.whatYouCanDo
           acc2Header := t.howToSpot
           footerText := t.footerText
           fileSubText :=
             if jsIncludes s.fileSubText "selected" then
               if s.fileNameText = "No file selected" then t.noFileSelected
               else t.fileSelected
             else s.fileSubText }

/-- One event-handler run of the backend-integrated controller. -/
def step (s : St) : Event → Out
  | .fileChange file => fileChangeStep s file
  | .dropFile f => fileChangeStep s (some f)
  | .tabClick t =>
    ⟨{ s with currentTab := t, fileAccept := acceptFor t }, [], []⟩
  | .clearClick =>
    ⟨{ s with currentFile := none
              fileNameText := "No file selected"
              uploaderActive := true
              resultsActive := false }, [], []⟩
  | .submitClick =>
    match s.checkBtnDisabled, s.currentFile with
    | true, _ => ⟨s, [], []⟩
    | false, none => ⟨s, [], ["Please select a file first!"]⟩
    | false, some f =>
      let req := requestFor s.currentTab s.currentLanguage f
      ⟨{ s with checkBtnDisabled := true
                checkBtnLabel := "Analyzing..."
                pending := some ⟨s.currentTab, req⟩ }, [req], []⟩
  | .settle o =>
    match s.pending with
    | none => ⟨s, [], []⟩
    | some p =>
      match o with
      | .ok data =>
        ⟨{ s with render := some (displayResults (normalizeResponse p.tab data))
                  uploaderActive := false
                  resultsActive := true
                  checkBtnDisabled := false
                  checkBtnLabel := "Check Content"
                  pending := none }, [], []⟩
      | o =>
        ⟨{ s with checkBtnDisabled := false
                  checkBtnLabel := "Check Content"
                  pending := none }, [], [errText o]⟩
  | .langItemClick name => ⟨translateStep s (languageMap name), [], []⟩

/-- The input widget `updateUploader` (in `Main.js`) builds into the drop
area: a textarea for text mode, otherwise a fresh file input (with a MIME
`accept` filter) plus the file-name caption; `staged` is the file held by
that input element. -/
inductive MainWidget
  | textArea (content : String)
  | fileWidget (accept : String) (fileName : String) (staged : Option FileRec)
deriving DecidableEq

/-- State of the simulated legacy controller `src/Main.js`. -/
structure MainSt where
  currentMode : Tab
  uploaderActive : Bool
  resultsActive : Bool
  widget : MainWidget
  statusIconHTML : String
  resultHeading : String
  resultDesc : String
  progressTarget : Nat
deriving DecidableEq

/-- `updateUploader(mode)` from `Main.js`: empties the drop area and
builds the widget for the new mode. -/
def updateUploader (s : MainSt) (mode : Tab) : MainSt :=
  { s with currentMode := mode
           widget :=
             match mode with
             | .text => .textArea ""
             | .image => .fileWidget "image/*" "No file selected" none
             | .video => .fileWidget "video/*" "No file selected" none }

/-- The initial state of `Main.js`: uploader shown, results hidden,
default tab `video`, `updateUploader('video')` already run. -/
def mainInit : MainSt :=
  updateUploader
    { currentMode := .video
      uploaderActive := true
      resultsActive := false
      widget := .fileWidget "" "No file selected" none
      statusIconHTML := ""
      resultHeading := ""
      resultDesc := ""
      progressTarget := 0 } .video

/-- The file staged in the `Main.js` widget, if any. -/
def mainStagedFile (s : MainSt) : Option FileRec :=
  match s.widget with
  | .textArea _ => none
  | .fileWidget _ _ staged => staged

/-- The `checkBtn` click handler of `Main.js`: adds the `active` class to
both panels, writes the canned human-created result, and issues no
network request and no alert. -/
def mainCheckClick (s : MainSt) : MainSt × List Request × List String :=
  ({ s with uploaderActive := true
            resultsActive := true
            statusIconHTML := "<span class=\"icon\">✓</span>"
            resultHeading := "Likely Human-Created Confidence: 91%"
            resultDesc :=
              match s.currentMode with
              | .text => "The writing style appears natural and contextually coherent."
              | .image => "The image shows realistic lighting, proportions, and metadata."
              | .video => "The video displays natural motion and authentic audio sync."
            progressTarget := 91 }, [], [])

/-- The `clearBtn` click handler of `Main.js`: rebuilds the widget for the
current mode, shows the uploader, hides the results. -/
def mainClearClick (s : MainSt) : MainSt :=
  { updateUploader s s.currentMode with uploaderActive := true, resultsActive := false }

/-- A concrete staged file used by witnesses. -/
def sampleFile : FileRec :=
  { name := "holiday.mp4", size := 4096, mime := "video/mp4" }

/-- A concrete controller state: English UI, video tab, nothing staged,
no submission in flight. -/
def sampleState : St :=
  { currentLanguage := .en
    currentFile := none
    currentTab := .video
    uploaderActive := true
    resultsActive := false
    checkBtnDisabled := false
    checkBtnLabel := "Check Content"
    fileNameText := "No file selected"
    fileIconText := "📹"
    fileSubText := "Choose a video file"
    fileAccept := ".mp4,.mov,.avi,.mkv,.webm"
    heroTitle := (allTranslations .en).heroTitle
    heroDesc := (allTranslations .en).heroDesc
    tabTextLabel := "Text"
    tabImageLabel := "Image"
    tabVideoLabel := "Video"
    resultsTitle := "Detection Results"
    acc1Header := "What You Can Do"
    acc2Header := "How to Spot AI Content"
    footerText := (allTranslations .en).footerText
    pending := none
    render := none }

/-- `sampleState` with `sampleFile` staged (after a change event). -/
def sampleStaged : St :=
  (step sampleState (Event.fileChange (some sampleFile))).state

/-- Claim C1, counterexample: in the simulated `Main.js` variant, a submit
click with no staged input surfaces no EmptyInput error (no alert at all)
and does not leave the view state unchanged — the results panel becomes
active.  (It does issue no network request.) -/
theorem C1_counterexample :
    mainStagedFile mainInit = none ∧
    (mainCheckClick mainInit).2.1 = [] ∧
    (mainCheckClick mainInit).2.2 = [] ∧
    mainInit.resultsActive = false ∧
    (mainCheckClick mainInit).1.resultsActive = true := by
  decide

/-- Claim C1 (amended): in the backend-integrated controller, a submit
click with no staged file and the submit control enabled issues no network
request, surfaces exactly the EmptyInput alert, and leaves the whole state
unchanged. -/
theorem C1_empty_input (s : St)
    (hd : s.checkBtnDisabled = false) (hf : s.currentFile = none) :
    step s Event.submitClick = ⟨s, [], ["Please select a file first!"]⟩ := by
  simp [step, hd, hf]

/-- Claim C1 witness: the amended theorem applied at the concrete initial
English state. -/
theorem C1_empty_input_witness :
    sampleState.checkBtnDisabled = false ∧ sampleState.currentFile = none ∧
    step sampleState Event.submitClick =
      ⟨sampleState, [], ["Please select a file first!"]⟩ :=
  ⟨rfl, rfl, C1_empty_input sampleState rfl rfl⟩

/-- Claim C2: evaluating the `Main.js` check handler at the initial state
shows the divergence — starting from uploader-only, the click leaves BOTH
panels active, contradicting the mutual-exclusion invariant (which the
spec marks as the intent and which `part_000`/`part_001` implement by
removing the uploader's `active` class). -/
theorem C2_mainjs_both_panels_active :
    mainInit.uploaderActive = true ∧ mainInit.resultsActive = false ∧
    (mainCheckClick mainInit).1.uploaderActive = true ∧
    (mainCheckClick mainInit).1.resultsActive = true := by
  decide

/-- Claim C3, counterexample: in the backend-integrated controller a
staged file survives a mode switch — after switching from the video tab to
the image tab the staged input is still present, not empty. -/
theorem C3_counterexample :
    sampleStaged.currentFile = some sampleFile ∧
    (step sampleStaged (Event.tabClick Tab.image)).state.currentFile = some sampleFile ∧
    ¬(step sampleStaged (Event.tabClick Tab.image)).state.currentFile = none := by
  decide

/-- Claim C3 (amended): a mode switch updates the accepted-file constraint
to the new mode's allow-list and activates that tab, but retains any
previously staged input unchanged; only the explicit clear action empties
the staged input. -/
theorem C3_tab_switch (s : St) (t : Tab) :
    (step s (Event.tabClick t)).state.currentFile = s.currentFile ∧
    (step s (Event.tabClick t)).state.fileAccept = acceptFor t ∧
    (step s (Event.tabClick t)).state.currentTab = t ∧
    (step s Event.clearClick).state.currentFile = none :=
  ⟨rfl, rfl, rfl, rfl⟩

/-- Claim C4: a submit click with a staged file issues exactly one
request, to the endpoint selected by the active tab (video to
detect-with-audio, image to detect-image, text to detect-document),
carrying the staged file as the body and the active language code as the
`language` query parameter. -/
theorem C4_single_request (s : St) (f : FileRec)
    (hd : s.checkBtnDisabled = false) (hf : s.currentFile = some f) :
    (step s Event.submitClick).requests =
      [{ url := API_BASE_URL ++
           (match s.currentTab with
             | Tab.video => "/api/detect-with-audio"
             | Tab.image => "/api/detect-image"
             | Tab.text => "/api/detect-document") ++
           "?language=" ++ langCode s.currentLanguage
         body := f }] := by
  cases h : s.currentTab <;>
    simp [step, hd, hf, requestFor, endpointPath, h]

/-- Claim C4 witness: with the video tab active, English selected and a
file staged, the single request goes to the detect-with-audio endpoint
with `language=en`. -/
theorem C4_witness :
    sampleStaged.checkBtnDisabled = false ∧
    sampleStaged.currentFile = some sampleFile ∧
    (step sampleStaged Event.submitClick).requests =
      [{ url := "http://127.0.0.1:8000/api/detect-with-audio?language=en"
         body := sampleFile }] := by
  refine ⟨rfl, rfl, ?_⟩
  have h := C4_single_request sampleStaged sampleFile rfl rfl
  exact h.trans (by decide)

/-- Claim C5: when the dispatched request settles with a non-success
outcome (non-OK HTTP status or transport failure), exactly the one
original request was issued and none after it (no retry), a NetworkError
alert is surfaced, the panels stay exactly as they were (Uploading), the
stored render is untouched, and the submit control is re-enabled. -/
theorem C5_network_error (s : St) (f : FileRec) (o : Outcome)
    (hd : s.checkBtnDisabled = false) (hf : s.currentFile = some f)
    (hu : s.uploaderActive = true) (hr : s.resultsActive = false)
    (ho : o.isOk = false) :
    (step s Event.submitClick).requests.length = 1 ∧
    (step (step s Event.submitClick).state (Event.settle o)).requests = [] ∧
    (step (step s Event.submitClick).state (Event.settle o)).alerts = [errText o] ∧
    (step (step s Event.submitClick).state (Event.settle o)).state.uploaderActive = true ∧
    (step (step s Event.submitClick).state (Event.settle o)).state.resultsActive = false ∧
    (step (step s Event.submitClick).state (Event.settle o)).state.checkBtnDisabled = false ∧
    (step (step s Event.submitClick).state (Event.settle o)).state.pending = none ∧
    (step (step s Event.submitClick).state (Event.settle o)).state.render = s.render := by
  cases o with
  | ok d => simp [Outcome.isOk] at ho
  | httpError n => simp [step, hd, hf, hu, hr]
  | networkFailure reason => simp [step, hd, hf, hu, hr]

/-- Claim C5 witness: the theorem applied at the concrete staged state
with an HTTP 500 outcome. -/
theorem C5_witness :
    Outcome.isOk (Outcome.httpError 500) = false ∧
    (step (step sampleStaged Event.submitClick).state
        (Event.settle (Outcome.httpError 500))).alerts =
      ["Error: HTTP error! status: 500"] ∧
    (step (step sampleStaged Event.submitClick).state
        (Event.settle (Outcome.httpError 500))).state.resultsActive = false := by
  have h := C5_network_error sampleStaged sampleFile (Outcome.httpError 500)
    rfl rfl rfl rfl rfl
  exact ⟨rfl, h.2.2.1.trans (by decide), h.2.2.2.2.1⟩

/-- Rounding fact used by the C6 instance: `Math.round(91.4) = 91`. -/
theorem jsRound_of_91_4 : jsRound (914/10 : ℚ) = 91 := by
  unfold jsRound
  rw [Int.floor_eq_iff]
  constructor <;> norm_num

/-- The concrete successful response of claim C6:
`is_ai_generated = true`, `confidence_score = 91.4`. -/
def c6Sample : AnalysisResult :=
  { type := .image
    isAI := true
    confidence := 914/10
    message := ""
    warning := ""
    confidenceLabel := "Confidence"
    details := ""
    hasAudio := false }

/-- Claim C6: the presenter deterministically maps `isAIGenerated` to one
of exactly two visual themes (warning icon, red coloring and `ai-result`
card class when true; check icon, green coloring and `human-result` when
false) and renders the confidence rounded to an integer percent; in
particular `is_ai_generated = true` with `confidence_score = 91.4` yields
the AI theme and a 91% badge. -/
theorem C6_presenter_themes :
    (∀ r : AnalysisResult,
      (displayResults r).statusIconHTML =
        (if r.isAI then "<span class=\"icon\">⚠️</span>"
          else "<span class=\"icon\">✓</span>") ∧
      (displayResults r).statusBg = (if r.isAI then "#FFE8E8" else "#E6F7E6") ∧
      (displayResults r).statusColor = (if r.isAI then "#D32F2F" else "#74D480") ∧
      (displayResults r).cardClass = (if r.isAI then "ai-result" else "human-result") ∧
      (displayResults r).badgePercent = jsRound r.confidence ∧
      (displayResults r).progressTarget = jsRound r.confidence) ∧
    (displayResults c6Sample).statusIconHTML = "<span class=\"icon\">⚠️</span>" ∧
    (displayResults c6Sample).cardClass = "ai-result" ∧
    (displayResults c6Sample).badgeLabel = "Confidence" ∧
    (displayResults c6Sample).badgePercent = 91 := by
  refine ⟨?_, rfl, rfl, rfl, ?_⟩
  · intro r
    cases h : r.isAI <;> simp [displayResults, h]
  · exact jsRound_of_91_4

/-- The successful response of claim C7: human-created, with the optional
`message`, `warning` and `confidence_label` fields absent. -/
def c7Data : ResponseData :=
  { detection_result :=
      { is_ai_generated := false
        confidence_score := 87
        message := none
        warning := none
        confidence_label := none }
    modeInfo := ""
    hasAudioInfo := none }

/-- The C7 submission flow with isiZulu as the active language. -/
def c7RunZu : Out :=
  step (step { sampleStaged with currentLanguage := Lang.zu }
      Event.submitClick).state
    (Event.settle (Outcome.ok c7Data))

/-- The C7 submission flow with English as the active language. -/
def c7RunEn : Out :=
  step (step sampleStaged Event.submitClick).state
    (Event.settle (Outcome.ok c7Data))

/-- Claim C7, counterexample: with isiZulu active, a human-created
response with no `message`/`warning` is rendered with the fixed English
default heading and description — identical to what English renders — so
the fallback text is not localized for the active language (whose
translation table genuinely differs from English). -/
theorem C7_counterexample :
    c7RunZu.state.currentLanguage = Lang.zu ∧
    c7RunZu.state.render.map Render.resultDesc =
      some "The video displays natural motion, consistent lighting across frames, and authentic audio synchronization." ∧
    c7RunZu.state.render.map Render.resultDesc =
      c7RunEn.state.render.map Render.resultDesc ∧
    c7RunZu.state.render.map Render.headingText = some "Likely Human-Created" ∧
    (allTranslations Lang.zu).heroTitle ≠ (allTranslations Lang.en).heroTitle := by
  decide

/-- Claim C7 (amended): absent optional fields are substituted with safe
defaults (`message`/`warning` become the empty string, the confidence
label becomes "Confidence") rather than failing, and the presenter then
shows the mode-specific default heading and description, which are fixed
English strings independent of the active language. -/
theorem C7_defaults (s : St) (f : FileRec) (d : ResponseData)
    (hd : s.checkBtnDisabled = false) (hf : s.currentFile = some f)
    (hm : d.detection_result.message = none)
    (hw : d.detection_result.warning = none)
    (hl : d.detection_result.confidence_label = none)
    (hai : d.detection_result.is_ai_generated = false) :
    (normalizeResponse s.currentTab d).message = "" ∧
    (normalizeResponse s.currentTab d).warning = "" ∧
    (normalizeResponse s.currentTab d).confidenceLabel = "Confidence" ∧
    (displayResults (normalizeResponse s.currentTab d)).headingText =
      "Likely Human-Created" ∧
    (displayResults (normalizeResponse s.currentTab d)).badgeLabel = "Confidence" ∧
    (displayResults (normalizeResponse s.currentTab d)).resultDesc =
      defaultHumanDesc (normalizeResponse s.currentTab d).type ∧
    (step (step s Event.submitClick).state
        (Event.settle (Outcome.ok d))).state.render =
      some (displayResults (normalizeResponse s.currentTab d)) := by
  simp [normalizeResponse, jsOrOpt, jsOrS, displayResults, hm, hw, hl, hai,
    step, hd, hf]

/-- Claim C7 witness: the amended theorem applied at the concrete staged
state and the concrete field-free response. -/
theorem C7_defaults_witness :
    c7Data.detection_result.message = none ∧
    (displayResults (normalizeResponse sampleStaged.currentTab c7Data)).resultDesc =
      "The video displays natural motion, consistent lighting across frames, and authentic audio synchronization." := by
  have h := C7_defaults sampleStaged sampleFile c7Data rfl rfl rfl rfl rfl rfl
  exact ⟨rfl, h.2.2.2.2.2.1.trans (by decide)⟩

/-- States reachable from `s0` by running event handlers. -/
inductive ReachableFrom (s0 : St) : St → Prop
  | base : ReachableFrom s0 s0
  | next (s : St) (e : Event) : ReachableFrom s0 s → ReachableFrom s0 (step s e).state

/-- Every handler preserves the discipline that a pending submission keeps
the submit control disabled. -/
theorem pending_disables_step (s : St) (e : Event)
    (h : s.pending.isSome = true → s.checkBtnDisabled = true) :
    (step s e).state.pending.isSome = true →
      (step s e).state.checkBtnDisabled = true := by
  cases e with
  | fileChange file => cases file <;> simpa [step, fileChangeStep] using h
  | dropFile f => simpa [step, fileChangeStep] using h
  | tabClick t => simpa [step] using h
  | clearClick => simpa [step] using h
  | submitClick =>
    cases hd : s.checkBtnDisabled with
    | true => simp [step, hd]
    | false =>
      cases hf : s.currentFile with
      | none => simpa [step, hd, hf] using h
      | some f => simp [step, hd, hf]
  | settle o =>
    cases hp : s.pending with
    | none => simp [step, hp]
    | some p => cases o <;> simp [step, hp]
  | langItemClick name => simpa [step, translateStep] using h

/-- In any state reachable from a state with no submission in flight, a
pending submission implies the submit control is disabled. -/
theorem reachable_pending_disables (s0 s : St)
    (h0 : s0.pending = none) (hr : ReachableFrom s0 s) :
    s.pending.isSome = true → s.checkBtnDisabled = true := by
  induction hr with
  | base => intro hp; rw [h0] at hp; cases hp
  | next s e _ ih => exact pending_disables_step s e ih

/-- Claim C8: while a submission is in flight in any reachable state,
invoking submit again issues no network call, surfaces nothing, and
changes no state (the disabled submit control ignores the click); and
however the pending request settles, the control is re-enabled and the
flight is over. -/
theorem C8_no_double_submit (s0 s : St)
    (h0 : s0.pending = none) (hr : ReachableFrom s0 s)
    (hf : s.pending.isSome = true) :
    step s Event.submitClick = ⟨s, [], []⟩ ∧
    ∀ o : Outcome,
      (step s (Event.settle o)).state.checkBtnDisabled = false ∧
      (step s (Event.settle o)).state.pending = none := by
  have hd := reachable_pending_disables s0 s h0 hr hf
  refine ⟨by simp [step, hd], ?_⟩
  intro o
  cases hp : s.pending with
  | none => rw [hp] at hf; cases hf
  | some p => cases o <;> simp [step, hp]

/-- The concrete in-flight state used by the C8 witness: stage a file,
then submit. -/
def c8Flight : St := (step sampleStaged Event.submitClick).state

/-- Claim C8 witness: the theorem applied along the concrete trace
stage-file-then-submit from the initial English state. -/
theorem C8_witness :
    c8Flight.pending.isSome = true ∧
    step c8Flight Event.submitClick = ⟨c8Flight, [], []⟩ := by
  have hr : ReachableFrom sampleState c8Flight :=
    ReachableFrom.next _ Event.submitClick
      (ReachableFrom.next _ (Event.fileChange (some sampleFile)) ReachableFrom.base)
  exact ⟨by decide, (C8_no_double_submit sampleState c8Flight rfl hr (by decide)).1⟩

/-- A concrete English state with a staged file whose caption still reads
the English "File selected" (the value the translator itself writes for
English). -/
def c9Start : St :=
  { sampleState with
      currentFile := some sampleFile
      fileNameText := "holiday.mp4"
      fileSubText := "File selected" }

/-- The C9 trace after selecting isiZulu. -/
def c9AfterZu : St := (step c9Start (Event.langItemClick "isiZulu")).state

/-- The C9 trace after then selecting Afrikaans. -/
def c9AfterAf : St := (step c9AfterZu (Event.langItemClick "Afrikaans")).state

/-- Claim C9, counterexample: with a file staged, switching to isiZulu
updates the caption, but a further switch to Afrikaans leaves the caption
in isiZulu (the handler only rewrites it while it still contains the
English word "selected"), even though the rest of the UI text (for
example the hero copy) does move to Afrikaans. -/
theorem C9_counterexample :
    c9AfterZu.fileSubText = "Ifayela likhethiwe" ∧
    c9AfterAf.currentLanguage = Lang.af ∧
    c9AfterAf.currentFile = some sampleFile ∧
    c9AfterAf.fileSubText = "Ifayela likhethiwe" ∧
    (allTranslations Lang.af).fileSelected = "Lêer gekies" ∧
    c9AfterAf.fileSubText ≠ (allTranslations Lang.af).fileSelected ∧
    c9AfterAf.heroTitle = (allTranslations Lang.af).heroTitle := by
  decide

/-- Claim C9 (amended): selecting a language re-renders the hero copy,
tab labels, accordion headers, footer and results title to that language
with no other state change required; the staged-file caption is updated to
the new language's phrasing provided the displayed caption still contains
the English word "selected". -/
theorem C9_language_switch (s : St) (name : String)
    (h1 : jsIncludes s.fileSubText "selected" = true)
    (h2 : ¬s.fileNameText = "No file selected") :
    (step s (Event.langItemClick name)).state.currentLanguage = languageMap name ∧
    (step s (Event.langItemClick name)).state.heroTitle =
      (allTranslations (languageMap name)).heroTitle ∧
    (step s (Event.langItemClick name)).state.heroDesc =
      (allTranslations (languageMap name)).heroDesc ∧
    (step s (Event.langItemClick name)).state.tabTextLabel =
      (allTranslations (languageMap name)).tabText ∧
    (step s (Event.langItemClick name)).state.tabImageLabel =
      (allTranslations (languageMap name)).tabImage ∧
    (step s (Event.langItemClick name)).state.tabVideoLabel =
      (allTranslations (languageMap name)).tabVideo ∧
    (step s (Event.langItemClick name)).state.resultsTitle =
      (allTranslations (languageMap name)).resultsTitle ∧
    (step s (Event.langItemClick name)).state.acc1Header =
      (allTranslations (languageMap name)).whatYouCanDo ∧
    (step s (Event.langItemClick name)).state.acc2Header =
      (allTranslations (languageMap name)).howToSpot ∧
    (step s (Event.langItemClick name)).state.footerText =
      (allTranslations (languageMap name)).footerText ∧
    (step s (Event.langItemClick name)).state.fileSubText =
      (allTranslations (languageMap name)).fileSelected := by
  simp [step, translateStep, h1, h2]

/-- Claim C9 witness: the amended theorem applied at the concrete staged
English state with the isiZulu menu item. -/
theorem C9_witness :
    jsIncludes c9Start.fileSubText "selected" = true ∧
    (step c9Start (Event.langItemClick "isiZulu")).state.fileSubText =
      (allTranslations (languageMap "isiZulu")).fileSelected := by
  refine ⟨by decide, ?_⟩
  have h := C9_language_switch c9Start "isiZulu" (by decide) (by decide)
  exact h.2.2.2.2.2.2.2.2.2.2

/-- Claim C10: in the backend-integrated controller a change event with an
empty file list leaves the whole state (in particular the staged file and
the displayed file name) unchanged; the explicit clear action resets the
staged file and the displayed name; and no event other than clear can take
a staged file back to empty. -/
theorem C10_frame (s : St) (f : FileRec) (e : Event)
    (h1 : s.currentFile = some f) (h2 : e ≠ Event.clearClick) :
    (step s (Event.fileChange none)).state = s ∧
    (step s Event.clearClick).state.currentFile = none ∧
    (step s Event.clearClick).state.fileNameText = "No file selected" ∧
    (step s e).state.currentFile ≠ none := by
  refine ⟨rfl, rfl, rfl, ?_⟩
  cases e with
  | fileChange file =>
    cases file with
    | none => simp [step, fileChangeStep, h1]
    | some g => simp [step, fileChangeStep]
  | dropFile g => simp [step, fileChangeStep]
  | tabClick t => simp [step, h1]
  | clearClick => exact absurd rfl h2
  | submitClick =>
    cases hd : s.checkBtnDisabled with
    | true => simp [step, hd, h1]
    | false => simp [step, hd, h1]
  | settle o =>
    cases hp : s.pending with
    | none => simp [step, hp, h1]
    | some p => cases o <;> simp [step, hp, h1]
  | langItemClick name => simp [step, translateStep, h1]

/-- Claim C10 witness: the theorem applied at the concrete staged state
with a tab-switch event. -/
theorem C10_witness :
    sampleStaged.currentFile = some sampleFile ∧
    (step sampleStaged (Event.fileChange none)).state = sampleStaged ∧
    (step sampleStaged (Event.tabClick Tab.text)).state.currentFile ≠ none := by
  have h := C10_frame sampleStaged sampleFile (Event.tabClick Tab.text) rfl (by decide)
  exact ⟨rfl, h.1, h.2.2.2⟩

end GirlcodeUI
